import Mathlib

/-!
# Verification of the `Automata` cellular-automaton engine

Shallow embedding of `src/automata.ts` (piman51277/flipboard): a rectangular
grid of boolean cells evolving under a 9-entry birth/survival ruleset and a
Moore or von Neumann neighbourhood.

Modelling conventions, chosen to mirror JavaScript semantics:
* `boolean[][]` becomes `List (List Bool)`; reading a missing index yields
  `undefined`, which is falsy in every context the source reads cells in, so
  out-of-range reads are modelled by the default `false`.
* `this.ruleset[neighbors] & 1` applies `ToInt32` to `undefined`, giving `0`,
  so ruleset lookup is modelled by `List.getD _ 0`.
* A JavaScript `TypeError` (indexing into a missing row on the write side)
  is modelled by `Option`, the crash being `none`.
* `Math.random() > 1 - density` draws are modelled by an oracle
  `rand : Nat → Nat → Bool` giving the outcome of the draw for each cell.
-/

set_option autoImplicit false

namespace Flipboard

/-- `type AutomataNeighborhood = "moore" | "von-neumann"` -/
inductive AutomataNeighborhood where
  | moore
  | vonNeumann
  deriving DecidableEq

/-- `boolean[][]`: a list of rows, addressed `grid[y][x]`. -/
abbrev Grid := List (List Bool)

/-- `this.grid.length` -/
def gridHeight (g : Grid) : Nat := g.length

/-- `this.grid[0].length` (`0` when there are no rows; the source only reads
it in contexts where a missing row 0 makes every dependent loop body dead). -/
def gridWidth (g : Grid) : Nat := (g.headD []).length

/-- Read `grid[y][x]`; a missing index is `undefined`, which is falsy. -/
def getCell (g : Grid) (x y : Nat) : Bool := (g.getD y []).getD x false

/-- The fields of `class Automata`. -/
structure Automata where
  ruleset : List Nat
  neighborhood : AutomataNeighborhood
  grid : Grid
  deriving DecidableEq

/-- The offset table built by `getNeighbors`: the four orthogonal offsets,
with the four diagonal offsets pushed at the end when the neighbourhood is
`"moore"`. -/
def offsets : AutomataNeighborhood → List (Int × Int)
  | .vonNeumann => [(0, -1), (-1, 0), (1, 0), (0, 1)]
  | .moore => [(0, -1), (-1, 0), (1, 0), (0, 1), (-1, -1), (1, -1), (-1, 1), (1, 1)]

/-- `getNeighbors(x, y)`: count the offsets whose target is inside
`[0, grid[0].length) × [0, grid.length)` and holds a live cell. -/
def Automata.getNeighbors (a : Automata) (x y : Int) : Nat :=
  (offsets a.neighborhood).countP fun o =>
    let nx := x + o.1
    let ny := y + o.2
    decide (0 ≤ nx) && decide (nx < (gridWidth a.grid : Int)) &&
      decide (0 ≤ ny) && decide (ny < (gridHeight a.grid : Int)) &&
      getCell a.grid nx.toNat ny.toNat

/-- `newGrid[y][x] = v`: an in-range write (the only kind `update` performs;
`List.set` out of range is the identity). -/
def writeCell (g : Grid) (x y : Nat) (v : Bool) : Grid :=
  g.set y ((g.getD y []).set x v)

/-- The nested `for (let y …) for (let x …)` write loops of the source,
writing `f x y` into cell `(x, y)` of the accumulating grid. -/
def loopCells (w h : Nat) (f : Nat → Nat → Bool) (g0 : Grid) : Grid :=
  (List.range h).foldl
    (fun g y => (List.range w).foldl (fun g x => writeCell g x y (f x y)) g) g0

/-- `new Array(height).fill(0).map(() => new Array(width).fill(false))` -/
def mkGrid (width height : Nat) : Grid :=
  (List.range height).map fun _ => List.replicate width false

/-- `Automata.update()`: build a fresh all-`false` grid of the current
dimensions, run the (redundant) clearing loops, then for every cell write the
survival bit (`ruleset[n] & 1`) if the cell is alive in the *old* grid and the
birth bit (`ruleset[n] & 2`) otherwise, with `n` counted on the old grid;
finally replace the grid. -/
def Automata.update (a : Automata) : Automata :=
  let h := gridHeight a.grid
  let w := gridWidth a.grid
  let newGrid0 : Grid := mkGrid w h
  let cleared := loopCells w h (fun _ _ => false) newGrid0
  let stepped := loopCells w h
    (fun x y =>
      let neighbors := a.getNeighbors x y
      if getCell a.grid x y then decide ((a.ruleset.getD neighbors 0) &&& 1 = 1)
      else decide ((a.ruleset.getD neighbors 0) &&& 2 = 2))
    cleared
  { a with grid := stepped }

/-- The width block of `resize`: truncate every row (`row.slice(0, width)`)
when shrinking, push `width - row.length` dead cells onto every row when
growing, comparing against `this.grid[0].length`. -/
def resizeWidth (width : Int) (g : Grid) : Grid :=
  if width < (gridWidth g : Int) then g.map fun row => row.take width.toNat
  else if (gridWidth g : Int) < width then
    g.map fun row => row ++ List.replicate (width.toNat - row.length) false
  else g

/-- The height-growth loop
`for (let i = 0; i < height - this.grid.length; i++) this.grid.push(new Array(width).fill(false))`.
The loop bound `height - this.grid.length` is re-evaluated after every push
while each push grows `this.grid.length`, so growing by `d ≥ 1` rows pushes
only `⌈d/2⌉` of them. The structural `fuel` argument only bounds the
recursion: the condition forces `i < height`, so the `height.toNat + 1` fuel
`resizeHeight` passes is never exhausted (`growRows_eq` proves the loop's
exact behaviour under that bound). -/
def growRows (width height : Int) : Nat → Nat → Grid → Grid
  | 0, _, g => g
  | fuel + 1, i, g =>
      if (i : Int) < height - (g.length : Int) then
        growRows width height fuel (i + 1) (g ++ [List.replicate width.toNat false])
      else g

/-- The number of rows the `growRows` loop leaves behind, starting from `L`
rows: `height.toNat` when shrinking, `L + ⌈(height - L)/2⌉` when growing
(the loop's self-limiting bound), `L` when equal. Closed form used in lemma
statements. -/
def resizeHeightLen (height : Int) (L : Nat) : Nat :=
  if height < (L : Int) then height.toNat
  else if (L : Int) < height then L + (((height - (L : Int)).toNat + 1) / 2)
  else L

/-- The height block of `resize`: truncate the row list when shrinking, or
run the (self-limiting) growth loop pushing fresh all-dead rows of the *new*
width when growing. -/
def resizeHeight (width height : Int) (g : Grid) : Grid :=
  if height < (g.length : Int) then g.take height.toNat
  else if (g.length : Int) < height then growRows width height (height.toNat + 1) 0 g
  else g

/-- `Automata.resize(width, height)`: return on non-positive dimensions;
the unchanged-dimensions check then reads `this.grid[0].length`, which on a
zero-row grid is a `TypeError` (`grid[0]` is `undefined`), modelled `none`;
otherwise run the width block, then the height block. -/
def Automata.resize (a : Automata) (width height : Int) : Option Automata :=
  if width < 1 ∨ height < 1 then some a
  else if a.grid.length = 0 then none
  else if width = (gridWidth a.grid : Int) ∧ height = (gridHeight a.grid : Int) then some a
  else some { a with grid := resizeHeight width height (resizeWidth width a.grid) }

/-- `grid[y][x] = true` with JavaScript write semantics: a write past the end
of an existing row extends the row (the holes read back as falsy `undefined`,
modelled `false`); a write into a missing row (`grid[y]` is `undefined`) is a
`TypeError`, modelled `none`. -/
def setCellTrue (g : Grid) (x y : Nat) : Option Grid :=
  if hy : y < g.length then
    let row := g.get ⟨y, hy⟩
    some (g.set y (if x < row.length then row.set x true
                   else row ++ List.replicate (x - row.length) false ++ [true]))
  else none

/-- The `Automata` constructor: store the ruleset and neighbourhood
unvalidated, allocate a `height × width` all-`false` grid, then either seed
every cell from the random oracle or set the single centre cell
`(⌊width/2⌋, ⌊height/2⌋)`. `none` models the constructor crashing with a
`TypeError` (the single-seed write lands in a missing row). -/
def Automata.construct (ruleset : List Nat) (neighborhood : AutomataNeighborhood)
    (width height : Nat) (initRand : Bool) (rand : Nat → Nat → Bool) : Option Automata :=
  let grid0 := mkGrid width height
  if initRand then
    some { ruleset := ruleset, neighborhood := neighborhood,
           grid := loopCells width height rand grid0 }
  else
    (setCellTrue grid0 (width / 2) (height / 2)).map fun grid =>
      { ruleset := ruleset, neighborhood := neighborhood, grid := grid }

/-- Every row has the grid's width: the spec's rectangularity invariant. -/
@[reducible] def Rectangular (g : Grid) : Prop := ∀ row ∈ g, row.length = gridWidth g

/-- The `h × w` grid whose cell `(x, y)` is `f x y`. Every grid the source
builds by nested write loops is proved equal to a `buildGrid`. -/
def buildGrid (w h : Nat) (f : Nat → Nat → Bool) : Grid :=
  (List.range h).map fun y => (List.range w).map fun x => f x y

/-- One inner pass `for (x = 0; x < w; x++) row[x] = f x`, as `List.set`s. -/
def rowLoop (w : Nat) (f : Nat → Bool) (row : List Bool) : List Bool :=
  (List.range w).foldl (fun r x => r.set x (f x)) row

/-- The per-cell formula of `update`: the survival bit `ruleset[n] & 1` when
the old cell is alive, the birth bit `ruleset[n] & 2` otherwise, with the
neighbour count `n` taken on the old grid. -/
def stepCell (a : Automata) (x y : Nat) : Bool :=
  let neighbors := a.getNeighbors x y
  if getCell a.grid x y then decide ((a.ruleset.getD neighbors 0) &&& 1 = 1)
  else decide ((a.ruleset.getD neighbors 0) &&& 2 = 2)

/-- Modelled from the spec's words for `Sampler.count`: the 8 offsets
`{(-1,-1)…(1,1)}` excluding `(0,0)`. -/
def mooreOffsetsSpec : List (Int × Int) :=
  [(-1, -1), (0, -1), (1, -1), (-1, 0), (1, 0), (-1, 1), (0, 1), (1, 1)]

/-- Modelled from the spec's words: the 4 orthogonal offsets. -/
def vonNeumannOffsetsSpec : List (Int × Int) :=
  [(0, -1), (-1, 0), (1, 0), (0, 1)]

/-- Modelled from the spec's words: the offsets `count` examines. -/
def offsetsSpec : AutomataNeighborhood → List (Int × Int)
  | .moore => mooreOffsetsSpec
  | .vonNeumann => vonNeumannOffsetsSpec

/-- Modelled from the spec's words: a neighbour outside
`[0,width)×[0,height)` is treated as dead (contributes 0). -/
def aliveAtSpec (g : Grid) (x y : Int) : Bool :=
  decide (0 ≤ x) && decide (x < (gridWidth g : Int)) && decide (0 ≤ y) &&
    decide (y < (gridHeight g : Int)) && getCell g x.toNat y.toNat

/-- Modelled from the spec's words: the number of live cells among exactly
the spec's offsets, an out-of-bounds offset contributing 0. -/
def countSpec (nb : AutomataNeighborhood) (g : Grid) (x y : Int) : Nat :=
  (offsetsSpec nb).countP fun o => aliveAtSpec g (x + o.1) (y + o.2)

/-- Rule B3/S23 in the source's encoding: survive (`& 1`) at 2 and 3 live
neighbours, birth (`& 2`) at 3. -/
def rulesetB3S23 : List Nat := [0, 0, 1, 3, 0, 0, 0, 0, 0]

/-- A 5 × 4 grid holding a horizontal 3-cell line ("blinker") centred at
`(2, 1)`, with one cell of dead margin on every side. -/
def exGrid : Grid :=
  [[false, false, false, false, false],
   [false, true, true, true, false],
   [false, false, false, false, false],
   [false, false, false, false, false]]

/-- Concrete fixture automaton used to witness hypothesis-bearing theorems. -/
def exAutomata : Automata :=
  { ruleset := rulesetB3S23, neighborhood := .moore, grid := exGrid }

/-- The `w × h` grid holding exactly a horizontal 3-cell line centred at
`(cx, cy)` (cells `(cx-1, cy)`, `(cx, cy)`, `(cx+1, cy)` alive). -/
def blinkerH (w h cx cy : Nat) : Grid :=
  buildGrid w h fun x y => decide (y = cy ∧ (x + 1 = cx ∨ x = cx ∨ x = cx + 1))

/-- The `w × h` grid holding exactly a vertical 3-cell line centred at
`(cx, cy)` (cells `(cx, cy-1)`, `(cx, cy)`, `(cx, cy+1)` alive). -/
def blinkerV (w h cx cy : Nat) : Grid :=
  buildGrid w h fun x y => decide (x = cx ∧ (y + 1 = cy ∨ y = cy ∨ y = cy + 1))

/-! ## The normal form of grid-producing loops -/

theorem buildGrid_length (w h : Nat) (f : Nat → Nat → Bool) :
    (buildGrid w h f).length = h := by
  simp [buildGrid]

theorem buildGrid_getElem? (w h : Nat) (f : Nat → Nat → Bool) {y : Nat} (hy : y < h) :
    (buildGrid w h f)[y]? = some ((List.range w).map fun x => f x y) := by
  simp [buildGrid, List.getElem?_map, List.getElem?_range hy]

theorem buildGrid_row_length (w h : Nat) (f : Nat → Nat → Bool) :
    ∀ row ∈ buildGrid w h f, row.length = w := by
  intro row hrow
  simp only [buildGrid, List.mem_map, List.mem_range] at hrow
  obtain ⟨y, -, rfl⟩ := hrow
  simp

theorem gridHeight_buildGrid (w h : Nat) (f : Nat → Nat → Bool) :
    gridHeight (buildGrid w h f) = h :=
  buildGrid_length w h f

theorem gridWidth_buildGrid (w h : Nat) (f : Nat → Nat → Bool) (hh : 0 < h) :
    gridWidth (buildGrid w h f) = w := by
  unfold gridWidth
  rw [List.headD_eq_head?, List.head?_eq_getElem?, buildGrid_getElem? w h f hh]
  simp

theorem rectangular_buildGrid (w h : Nat) (f : Nat → Nat → Bool) :
    Rectangular (buildGrid w h f) := by
  intro row hrow
  rcases h with - | h
  · simp [buildGrid] at hrow
  · rw [buildGrid_row_length w _ f row hrow, gridWidth_buildGrid w _ f (Nat.succ_pos h)]

theorem getCell_buildGrid (w h : Nat) (f : Nat → Nat → Bool) (x y : Nat) :
    getCell (buildGrid w h f) x y = if x < w ∧ y < h then f x y else false := by
  unfold getCell
  simp only [List.getD_eq_getElem?_getD]
  by_cases hy : y < h
  · rw [buildGrid_getElem? w h f hy]
    simp only [Option.getD_some, List.getElem?_map]
    by_cases hx : x < w
    · rw [List.getElem?_range hx]
      simp [hx, hy]
    · rw [List.getElem?_eq_none (by simp only [List.length_range]; omega)]
      simp [hx]
  · rw [show (buildGrid w h f)[y]? = none from
      List.getElem?_eq_none (by rw [buildGrid_length]; omega)]
    simp [hy]

theorem buildGrid_congr {w h : Nat} {f g : Nat → Nat → Bool}
    (hfg : ∀ x y, x < w → y < h → f x y = g x y) :
    buildGrid w h f = buildGrid w h g := by
  unfold buildGrid
  refine List.map_congr_left fun y hy => List.map_congr_left fun x hx => ?_
  exact hfg x y (List.mem_range.mp hx) (List.mem_range.mp hy)

/-! ## The write loops compute `buildGrid` -/

theorem length_writeCell (g : Grid) (x y : Nat) (v : Bool) :
    (writeCell g x y v).length = g.length := by
  simp [writeCell]

theorem rowLoop_succ (n : Nat) (f : Nat → Bool) (row : List Bool) :
    rowLoop (n + 1) f row = (rowLoop n f row).set n (f n) := by
  unfold rowLoop
  rw [List.range_succ, List.foldl_append]
  rfl

theorem rowLoop_length (w : Nat) (f : Nat → Bool) (row : List Bool) :
    (rowLoop w f row).length = row.length := by
  induction w with
  | zero => rfl
  | succ n ih => rw [rowLoop_succ, List.length_set, ih]

theorem rowLoop_getElem? (w : Nat) (f : Nat → Bool) (row : List Bool) (i : Nat) :
    (rowLoop w f row)[i]? =
      if i < w ∧ i < row.length then some (f i) else row[i]? := by
  induction w with
  | zero => simp [rowLoop]
  | succ n ih =>
      rw [rowLoop_succ, List.getElem?_set]
      rcases Nat.lt_trichotomy i n with hlt | rfl | hgt
      · rw [if_neg (by omega), ih]
        by_cases h2 : i < row.length
        · rw [if_pos ⟨hlt, h2⟩, if_pos ⟨by omega, h2⟩]
        · rw [if_neg (by omega), if_neg (by omega)]
      · rw [if_pos rfl, rowLoop_length]
        by_cases h2 : i < row.length
        · rw [if_pos h2, if_pos ⟨by omega, h2⟩]
        · rw [if_neg h2, if_neg (by omega), List.getElem?_eq_none (by omega)]
      · rw [if_neg (by omega), ih, if_neg (by omega), if_neg (by omega)]

theorem rowLoop_full (w : Nat) (f : Nat → Bool) (row : List Bool)
    (hrow : row.length = w) :
    rowLoop w f row = (List.range w).map f := by
  refine List.ext_getElem? fun i => ?_
  rw [rowLoop_getElem?]
  by_cases hi : i < w
  · rw [if_pos ⟨hi, by omega⟩, List.getElem?_map, List.getElem?_range hi]
    rfl
  · rw [if_neg (by omega), List.getElem?_eq_none (by omega),
      List.getElem?_eq_none (by simp; omega)]

theorem innerLoop_eq_set (w y : Nat) (f : Nat → Nat → Bool) (g : Grid) :
    (List.range w).foldl (fun g x => writeCell g x y (f x y)) g =
      g.set y (rowLoop w (fun x => f x y) (g.getD y [])) := by
  induction w with
  | zero =>
      show g = g.set y (g.getD y [])
      refine List.ext_getElem? fun i => ?_
      rw [List.getElem?_set]
      by_cases hiy : y = i
      · subst hiy
        rw [if_pos rfl]
        by_cases hy : y < g.length
        · rw [if_pos hy, List.getD_eq_getElem?_getD]
          cases hg : g[y]? with
          | none => exact absurd (List.getElem?_eq_none_iff.mp hg) (by omega)
          | some row => rfl
        · rw [if_neg hy, List.getElem?_eq_none (by omega)]
      · rw [if_neg hiy]
  | succ n ih =>
      rw [List.range_succ, List.foldl_append, ih]
      simp only [List.foldl_cons, List.foldl_nil]
      unfold writeCell
      rw [List.set_set, rowLoop_succ]
      congr 1
      by_cases hy : y < g.length
      · rw [List.getD_eq_getElem?_getD, List.getElem?_set, if_pos rfl, if_pos hy]
        rfl
      · have hnil : g.getD y [] = [] := by
          rw [List.getD_eq_getElem?_getD, List.getElem?_eq_none (by omega)]
          rfl
        rw [hnil,
          show rowLoop n (fun x => f x y) [] = [] from
            List.eq_nil_of_length_eq_zero (by rw [rowLoop_length]; rfl)]
        congr 1
        rw [List.set_eq_of_length_le (by omega), List.getD_eq_getElem?_getD,
          List.getElem?_eq_none (by omega)]
        rfl

theorem loopCells_eq_buildGrid (w h : Nat) (f : Nat → Nat → Bool) (g0 : Grid)
    (hlen : g0.length = h) (hrows : ∀ row ∈ g0, row.length = w) :
    loopCells w h f g0 = buildGrid w h f := by
  suffices H : ∀ k, k ≤ h →
      (List.range k).foldl
        (fun g y => (List.range w).foldl (fun g x => writeCell g x y (f x y)) g) g0 =
      (buildGrid w k f) ++ g0.drop k by
    have := H h (Nat.le_refl h)
    rw [List.drop_eq_nil_of_le (by omega), List.append_nil] at this
    exact this
  intro k hk
  induction k with
  | zero => simp [buildGrid]
  | succ n ih =>
      rw [List.range_succ, List.foldl_append]
      rw [ih (by omega)]
      simp only [List.foldl_cons, List.foldl_nil]
      rw [innerLoop_eq_set]
      have hrow_n : ((buildGrid w n f ++ g0.drop n).getD n []) = g0.getD n [] := by
        rw [List.getD_eq_getElem?_getD, List.getElem?_append,
          if_neg (by rw [buildGrid_length]; omega), buildGrid_length, Nat.sub_self,
          List.getD_eq_getElem?_getD, List.getElem?_drop, Nat.add_zero]
      rw [hrow_n]
      have hnlt : n < g0.length := by omega
      have hlen_n : (g0.getD n []).length = w := by
        have hmem : g0.getD n [] ∈ g0 := by
          rw [List.getD_eq_getElem?_getD, List.getElem?_eq_getElem hnlt]
          exact List.getElem_mem hnlt
        exact hrows _ hmem
      rw [rowLoop_full _ _ _ hlen_n]
      refine List.ext_getElem? fun i => ?_
      rw [List.getElem?_set]
      rcases Nat.lt_trichotomy i n with hlt | rfl | hgt
      · rw [if_neg (by omega), List.getElem?_append, List.getElem?_append,
          if_pos (by rw [buildGrid_length]; omega),
          if_pos (by rw [buildGrid_length]; omega),
          buildGrid_getElem? w n f hlt, buildGrid_getElem? w (n + 1) f (by omega)]
      · rw [if_pos rfl, if_pos (by simp [buildGrid_length]; omega),
          List.getElem?_append, if_pos (by rw [buildGrid_length]; omega),
          buildGrid_getElem? w (i + 1) f (by omega)]
      · rw [if_neg (by omega), List.getElem?_append, List.getElem?_append,
          if_neg (by rw [buildGrid_length]; omega),
          if_neg (by rw [buildGrid_length]; omega),
          buildGrid_length, buildGrid_length, List.getElem?_drop, List.getElem?_drop]
        congr 1
        omega

/-! ## Characterization of `update` -/

theorem mkGrid_length (w h : Nat) : (mkGrid w h).length = h := by
  simp [mkGrid]

theorem mkGrid_rows (w h : Nat) : ∀ row ∈ mkGrid w h, row.length = w := by
  intro row hrow
  simp only [mkGrid, List.mem_map, List.mem_range] at hrow
  obtain ⟨-, -, rfl⟩ := hrow
  simp

theorem update_grid_eq (a : Automata) :
    a.update.grid = buildGrid (gridWidth a.grid) (gridHeight a.grid) (stepCell a) := by
  show loopCells (gridWidth a.grid) (gridHeight a.grid) (stepCell a)
      (loopCells (gridWidth a.grid) (gridHeight a.grid) (fun _ _ => false)
        (mkGrid (gridWidth a.grid) (gridHeight a.grid))) = _
  rw [loopCells_eq_buildGrid _ _ _ _ (mkGrid_length _ _) (mkGrid_rows _ _),
    loopCells_eq_buildGrid _ _ _ _ (buildGrid_length _ _ _) (buildGrid_row_length _ _ _)]

theorem update_ruleset (a : Automata) : a.update.ruleset = a.ruleset := rfl

theorem update_neighborhood (a : Automata) : a.update.neighborhood = a.neighborhood := rfl

theorem getCell_update (a : Automata) (x y : Nat) :
    getCell a.update.grid x y =
      if x < gridWidth a.grid ∧ y < gridHeight a.grid then stepCell a x y else false := by
  rw [update_grid_eq, getCell_buildGrid]

theorem getNeighbors_eq_countSpec (a : Automata) (x y : Int) :
    a.getNeighbors x y = countSpec a.neighborhood a.grid x y := by
  obtain ⟨rs, nb, g⟩ := a
  cases nb with
  | moore =>
      have hperm : (offsets AutomataNeighborhood.moore).Perm
          (offsetsSpec AutomataNeighborhood.moore) := by decide
      exact List.Perm.countP_eq _ hperm
  | vonNeumann => rfl

/-! ## Claims C3, C4 and C10 -/

/-- C3: one `update` sets the next state of every cell `(x, y)` from the
pre-step grid: with `n` the live-neighbour count of `(x, y)` on the pre-step
grid, an alive cell becomes alive iff the SURVIVE flag (bit 1) of ruleset
entry `n` is set, and a dead cell becomes alive iff the BIRTH flag (bit 2) of
ruleset entry `n` is set; the grid keeps its dimensions, and every count and
cell read on the right-hand side refers to the unmodified pre-step automaton
(double-buffering). -/
theorem claim_C3_update_rule (a : Automata) (x y : Nat)
    (hx : x < gridWidth a.grid) (hy : y < gridHeight a.grid) :
    gridHeight a.update.grid = gridHeight a.grid ∧
    gridWidth a.update.grid = gridWidth a.grid ∧
    getCell a.update.grid x y =
      (if getCell a.grid x y
       then decide ((a.ruleset.getD (a.getNeighbors x y) 0) &&& 1 = 1)
       else decide ((a.ruleset.getD (a.getNeighbors x y) 0) &&& 2 = 2)) := by
  refine ⟨?_, ?_, ?_⟩
  · rw [update_grid_eq, gridHeight_buildGrid]
  · rw [update_grid_eq, gridWidth_buildGrid _ _ _ (by omega)]
  · rw [getCell_update, if_pos ⟨hx, hy⟩]
    rfl

theorem claim_C3_update_rule_witness :
    (2 : Nat) < gridWidth exAutomata.grid ∧ (1 : Nat) < gridHeight exAutomata.grid ∧
    (gridHeight exAutomata.update.grid = gridHeight exAutomata.grid ∧
     gridWidth exAutomata.update.grid = gridWidth exAutomata.grid ∧
     getCell exAutomata.update.grid 2 1 =
       (if getCell exAutomata.grid 2 1
        then decide ((exAutomata.ruleset.getD (exAutomata.getNeighbors 2 1) 0) &&& 1 = 1)
        else decide ((exAutomata.ruleset.getD (exAutomata.getNeighbors 2 1) 0) &&& 2 = 2))) :=
  ⟨by decide, by decide, claim_C3_update_rule exAutomata 2 1 (by decide) (by decide)⟩

/-- C4: for every rectangular grid and in-bounds cell, `getNeighbors` equals
the number of live cells among exactly the spec's offsets (8 for Moore, the 4
orthogonal ones for von Neumann), an offset landing outside
`[0,width)×[0,height)` contributing 0; hence the count is at most 8 for Moore
and at most 4 for von Neumann. -/
theorem claim_C4_neighbor_count (a : Automata) (x y : Nat)
    (_hrect : Rectangular a.grid)
    (_hx : x < gridWidth a.grid) (_hy : y < gridHeight a.grid) :
    a.getNeighbors x y = countSpec a.neighborhood a.grid x y ∧
    (a.neighborhood = .moore → a.getNeighbors x y ≤ 8) ∧
    (a.neighborhood = .vonNeumann → a.getNeighbors x y ≤ 4) := by
  refine ⟨getNeighbors_eq_countSpec a x y, fun hnb => ?_, fun hnb => ?_⟩
  · calc a.getNeighbors x y ≤ (offsets a.neighborhood).length :=
          List.countP_le_length _
    _ = 8 := by rw [hnb]; rfl
  · calc a.getNeighbors x y ≤ (offsets a.neighborhood).length :=
          List.countP_le_length _
    _ = 4 := by rw [hnb]; rfl

theorem claim_C4_neighbor_count_witness :
    Rectangular exAutomata.grid ∧ (2 : Nat) < gridWidth exAutomata.grid ∧
    (1 : Nat) < gridHeight exAutomata.grid ∧
    (exAutomata.getNeighbors 2 1 = countSpec exAutomata.neighborhood exAutomata.grid 2 1 ∧
     (exAutomata.neighborhood = .moore → exAutomata.getNeighbors 2 1 ≤ 8) ∧
     (exAutomata.neighborhood = .vonNeumann → exAutomata.getNeighbors 2 1 ≤ 4)) :=
  ⟨by decide, by decide, by decide,
    claim_C4_neighbor_count exAutomata 2 1 (by decide) (by decide) (by decide)⟩

/-- C10: if the ruleset array is shorter than the live-neighbour count of a
cell, `update` does not fail: the missing entry reads as `undefined`, whose
`ToInt32` is 0, so neither the SURVIVE nor the BIRTH bit is set and the cell's
next state is dead regardless of its current state. -/
theorem claim_C10_short_ruleset (a : Automata) (x y : Nat)
    (hx : x < gridWidth a.grid) (hy : y < gridHeight a.grid)
    (hn : a.ruleset.length ≤ a.getNeighbors x y) :
    getCell a.update.grid x y = false := by
  rw [getCell_update, if_pos ⟨hx, hy⟩]
  simp only [stepCell]
  rw [List.getD_eq_default _ _ hn]
  cases getCell a.grid x y <;> simp

/-! ## Row- and grid-level normal forms for `resize` -/

theorem gridHeight_def (g : Grid) : gridHeight g = g.length := rfl

theorem row_eq_map_range (row : List Bool) :
    row = (List.range row.length).map fun x => row.getD x false := by
  refine List.ext_getElem? fun i => ?_
  rw [List.getElem?_map]
  by_cases h : i < row.length
  · rw [List.getElem?_range h, List.getElem?_eq_getElem h]
    simp [List.getD_eq_getElem?_getD, List.getElem?_eq_getElem h]
  · rw [List.getElem?_eq_none (show row.length ≤ i by omega),
      List.getElem?_eq_none (by rw [List.length_range]; omega)]
    rfl

theorem getCell_of_getElem? {g : Grid} {row : List Bool} {y : Nat}
    (hg : g[y]? = some row) (x : Nat) : getCell g x y = row.getD x false := by
  unfold getCell
  simp only [List.getD_eq_getElem?_getD]
  rw [hg]
  rfl

theorem row_getElem_eq_map (g : Grid) (y : Nat) (hy : y < g.length) (W : Nat)
    (hlen : (g[y]).length = W) :
    g[y] = (List.range W).map fun x => getCell g x y := by
  calc g[y] = (List.range (g[y]).length).map fun x => (g[y]).getD x false :=
        row_eq_map_range _
  _ = _ := by
      rw [hlen]
      refine List.map_congr_left fun x _ => ?_
      rw [getCell_of_getElem? (List.getElem?_eq_getElem hy) x]

theorem row_take_eq (row : List Bool) (w : Nat) (hw : w ≤ row.length) :
    row.take w = (List.range w).map fun x => row.getD x false := by
  refine List.ext_getElem? fun i => ?_
  rw [List.getElem?_take, List.getElem?_map]
  by_cases h : i < w
  · rw [if_pos h, List.getElem?_range h, List.getElem?_eq_getElem (by omega)]
    simp [List.getD_eq_getElem?_getD, List.getElem?_eq_getElem (show i < row.length by omega)]
  · rw [if_neg h, List.getElem?_eq_none (by rw [List.length_range]; omega)]
    rfl

theorem row_pad_eq (row : List Bool) (w : Nat) (hw : row.length ≤ w) :
    row ++ List.replicate (w - row.length) false =
      (List.range w).map fun x => if x < row.length then row.getD x false else false := by
  refine List.ext_getElem? fun i => ?_
  rw [List.getElem?_append, List.getElem?_map]
  by_cases h1 : i < row.length
  · rw [if_pos h1, List.getElem?_range (by omega), List.getElem?_eq_getElem h1]
    simp [List.getD_eq_getElem?_getD, List.getElem?_eq_getElem h1, h1]
  · rw [if_neg h1, List.getElem?_replicate]
    by_cases h2 : i < w
    · rw [if_pos (by omega), List.getElem?_range h2]
      simp [h1]
    · rw [if_neg (by omega), List.getElem?_eq_none (by rw [List.length_range]; omega)]
      rfl

theorem replicate_eq_map_range (w : Nat) :
    List.replicate w false = (List.range w).map fun _ => false := by
  refine List.ext_getElem? fun i => ?_
  rw [List.getElem?_replicate, List.getElem?_map]
  by_cases h : i < w
  · rw [if_pos h, List.getElem?_range h]
    rfl
  · rw [if_neg h, List.getElem?_eq_none (by rw [List.length_range]; omega)]
    rfl

theorem grid_eq_buildGrid_self (g : Grid) (hrect : Rectangular g) :
    g = buildGrid (gridWidth g) (gridHeight g) (getCell g) := by
  refine List.ext_getElem? fun y => ?_
  by_cases hy : y < g.length
  · rw [buildGrid_getElem? _ _ _ (show y < gridHeight g from hy),
      List.getElem?_eq_getElem hy]
    exact congrArg some
      (row_getElem_eq_map g y hy _ (hrect _ (List.getElem_mem hy)))
  · rw [List.getElem?_eq_none (show g.length ≤ y by omega),
      List.getElem?_eq_none (by rw [buildGrid_length, gridHeight_def]; omega)]

theorem resizeWidth_grid (width : Int) (g : Grid) (hrect : Rectangular g)
    (hw : 1 ≤ width) :
    resizeWidth width g =
      buildGrid width.toNat g.length
        (fun x y => if x < gridWidth g then getCell g x y else false) := by
  unfold resizeWidth
  rcases lt_trichotomy width (gridWidth g : Int) with hlt | heq | hgt
  · rw [if_pos hlt]
    refine List.ext_getElem? fun y => ?_
    rw [List.getElem?_map]
    by_cases hy : y < g.length
    · rw [List.getElem?_eq_getElem hy, buildGrid_getElem? _ _ _ hy]
      have hlen : (g[y]).length = gridWidth g := hrect _ (List.getElem_mem hy)
      simp only [Option.map_some']
      congr 1
      rw [row_take_eq _ _ (by omega)]
      refine List.map_congr_left fun x hx => ?_
      rw [List.mem_range] at hx
      rw [if_pos (show x < gridWidth g by omega),
        getCell_of_getElem? (List.getElem?_eq_getElem hy) x]
    · rw [List.getElem?_eq_none (show g.length ≤ y by omega),
        List.getElem?_eq_none (by rw [buildGrid_length]; omega)]
      rfl
  · rw [if_neg (by omega), if_neg (by omega)]
    rw [show width.toNat = gridWidth g by omega]
    calc g = buildGrid (gridWidth g) (gridHeight g) (getCell g) :=
          grid_eq_buildGrid_self g hrect
    _ = _ := buildGrid_congr fun x y hx _ => by rw [if_pos hx]
  · rw [if_neg (by omega), if_pos hgt]
    refine List.ext_getElem? fun y => ?_
    rw [List.getElem?_map]
    by_cases hy : y < g.length
    · rw [List.getElem?_eq_getElem hy, buildGrid_getElem? _ _ _ hy]
      have hlen : (g[y]).length = gridWidth g := hrect _ (List.getElem_mem hy)
      simp only [Option.map_some']
      congr 1
      rw [row_pad_eq _ _ (by omega)]
      refine List.map_congr_left fun x hx => ?_
      rw [List.mem_range] at hx
      by_cases hxw : x < gridWidth g
      · rw [if_pos (by omega), if_pos hxw,
          getCell_of_getElem? (List.getElem?_eq_getElem hy) x]
      · rw [if_neg (by omega), if_neg hxw]
    · rw [List.getElem?_eq_none (show g.length ≤ y by omega),
        List.getElem?_eq_none (by rw [buildGrid_length]; omega)]
      rfl

theorem growRows_eq (width height : Int) :
    ∀ (fuel i : Nat) (g : Grid), height ≤ (i : Int) + (fuel : Int) →
    growRows width height fuel i g =
      g ++ List.replicate (((height - (g.length : Int) - (i : Int)).toNat + 1) / 2)
        (List.replicate width.toNat false) := by
  intro fuel
  induction fuel with
  | zero =>
      intro i g hfuel
      show g = _
      rw [show ((height - (g.length : Int) - (i : Int)).toNat + 1) / 2 = 0 by omega,
        List.replicate_zero, List.append_nil]
  | succ n ih =>
      intro i g hfuel
      show (if (i : Int) < height - (g.length : Int) then
          growRows width height n (i + 1) (g ++ [List.replicate width.toNat false])
        else g) = _
      by_cases hcond : (i : Int) < height - (g.length : Int)
      · rw [if_pos hcond, ih (i + 1) (g ++ [List.replicate width.toNat false])
          (by push_cast at hfuel ⊢; omega)]
        rw [List.append_assoc, List.singleton_append, ← List.replicate_succ]
        rw [show (g ++ [List.replicate width.toNat false]).length = g.length + 1 by simp]
        congr 1
        congr 1
        omega
      · rw [if_neg hcond,
          show ((height - (g.length : Int) - (i : Int)).toNat + 1) / 2 = 0 by omega,
          List.replicate_zero, List.append_nil]

theorem resizeHeight_grid (width height : Int) (g : Grid)
    (hrows : ∀ row ∈ g, row.length = width.toNat) (hh : 1 ≤ height) :
    resizeHeight width height g =
      buildGrid width.toNat (resizeHeightLen height g.length)
        (fun x y => if y < g.length then getCell g x y else false) := by
  unfold resizeHeight resizeHeightLen
  rcases lt_trichotomy height (g.length : Int) with hlt | heq | hgt
  · rw [if_pos hlt, if_pos hlt]
    refine List.ext_getElem? fun y => ?_
    rw [List.getElem?_take]
    by_cases hy : y < height.toNat
    · have hyg : y < g.length := by omega
      rw [if_pos hy, buildGrid_getElem? _ _ _ hy, List.getElem?_eq_getElem hyg]
      refine congrArg some ?_
      rw [row_getElem_eq_map g y hyg _ (hrows _ (List.getElem_mem hyg))]
      exact List.map_congr_left fun x _ => by rw [if_pos hyg]
    · rw [if_neg hy, List.getElem?_eq_none (by rw [buildGrid_length]; omega)]
  · rw [if_neg (by omega), if_neg (by omega), if_neg (by omega), if_neg (by omega)]
    refine List.ext_getElem? fun y => ?_
    by_cases hy : y < g.length
    · rw [buildGrid_getElem? _ _ _ hy, List.getElem?_eq_getElem hy]
      refine congrArg some ?_
      rw [row_getElem_eq_map g y hy _ (hrows _ (List.getElem_mem hy))]
      exact List.map_congr_left fun x _ => by rw [if_pos hy]
    · rw [List.getElem?_eq_none (show g.length ≤ y by omega),
        List.getElem?_eq_none (by rw [buildGrid_length]; omega)]
  · rw [if_neg (by omega), if_pos hgt, if_neg (by omega), if_pos hgt,
      growRows_eq width height (height.toNat + 1) 0 g (by push_cast; omega)]
    refine List.ext_getElem? fun y => ?_
    rw [List.getElem?_append]
    by_cases hy : y < g.length
    · rw [if_pos hy,
        buildGrid_getElem? _ _ _
          (show y < g.length + (((height - (g.length : Int)).toNat + 1) / 2) by omega),
        List.getElem?_eq_getElem hy]
      refine congrArg some ?_
      rw [row_getElem_eq_map g y hy _ (hrows _ (List.getElem_mem hy))]
      exact List.map_congr_left fun x _ => by rw [if_pos hy]
    · rw [if_neg hy, List.getElem?_replicate]
      by_cases hy2 : y < g.length + (((height - (g.length : Int)).toNat + 1) / 2)
      · rw [if_pos (by omega), buildGrid_getElem? _ _ _ hy2]
        refine congrArg some ?_
        rw [replicate_eq_map_range]
        exact List.map_congr_left fun x _ => by rw [if_neg hy]
      · rw [if_neg (by omega), List.getElem?_eq_none (by rw [buildGrid_length]; omega)]

theorem widthFirst_raw (g : Grid) (width height : Int)
    (hrect : Rectangular g) (hw : 1 ≤ width) (hh : 1 ≤ height) :
    resizeHeight width height (resizeWidth width g) =
      buildGrid width.toNat (resizeHeightLen height g.length)
        (fun x y => if x < gridWidth g ∧ y < g.length
                    then getCell g x y else false) := by
  rw [resizeWidth_grid width g hrect hw,
    resizeHeight_grid width height _ (buildGrid_row_length _ _ _) hh,
    buildGrid_length]
  refine buildGrid_congr fun x y hx hy => ?_
  rw [getCell_buildGrid]
  by_cases h1 : y < g.length
  · rw [if_pos h1, if_pos ⟨hx, h1⟩]
    by_cases h2 : x < gridWidth g
    · rw [if_pos h2, if_pos ⟨h2, h1⟩]
    · rw [if_neg h2, if_neg (by tauto)]
  · rw [if_neg h1, if_neg (by tauto)]

theorem claim_C10_short_ruleset_witness :
    (0 : Nat) < gridWidth (Automata.mk [] .moore [[true]]).grid ∧
    (0 : Nat) < gridHeight (Automata.mk [] .moore [[true]]).grid ∧
    (Automata.mk [] .moore [[true]]).ruleset.length ≤
      (Automata.mk [] .moore [[true]]).getNeighbors 0 0 ∧
    getCell (Automata.mk [] .moore [[true]]).update.grid 0 0 = false :=
  ⟨by decide, by decide, by decide,
    claim_C10_short_ruleset (Automata.mk [] .moore [[true]]) 0 0
      (by decide) (by decide) (by decide)⟩

/-! ## Constructor lemmas -/

theorem construct_true_eq (rs : List Nat) (nb : AutomataNeighborhood) (w h : Nat)
    (rand : Nat → Nat → Bool) :
    Automata.construct rs nb w h true rand =
      some { ruleset := rs, neighborhood := nb, grid := buildGrid w h rand } := by
  rw [show Automata.construct rs nb w h true rand =
      some { ruleset := rs, neighborhood := nb,
             grid := loopCells w h rand (mkGrid w h) } from rfl,
    loopCells_eq_buildGrid _ _ _ _ (mkGrid_length w h) (mkGrid_rows w h)]

theorem construct_seed_eq (rs : List Nat) (nb : AutomataNeighborhood) (w h : Nat)
    (rand : Nat → Nat → Bool) (hw : 1 ≤ w) (hh : 1 ≤ h) :
    Automata.construct rs nb w h false rand =
      some { ruleset := rs, neighborhood := nb,
             grid := (mkGrid w h).set (h / 2)
               ((List.replicate w false).set (w / 2) true) } := by
  have hy : h / 2 < (mkGrid w h).length := by rw [mkGrid_length]; omega
  show (setCellTrue (mkGrid w h) (w / 2) (h / 2)).map _ = _
  unfold setCellTrue
  rw [dif_pos hy, Option.map_some']
  have hrow : (mkGrid w h).get ⟨h / 2, hy⟩ = List.replicate w false := by
    simp [mkGrid]
  rw [hrow, if_pos (show w / 2 < (List.replicate w false).length by
    rw [List.length_replicate]; omega)]

theorem construct_isSome (rs : List Nat) (nb : AutomataNeighborhood) (w h : Nat)
    (initRand : Bool) (rand : Nat → Nat → Bool) (hh : 1 ≤ h) :
    ∃ a, Automata.construct rs nb w h initRand rand = some a ∧
      a.ruleset = rs ∧ a.neighborhood = nb := by
  cases initRand with
  | false =>
      have hy : h / 2 < (mkGrid w h).length := by rw [mkGrid_length]; omega
      show ∃ a, (setCellTrue (mkGrid w h) (w / 2) (h / 2)).map _ = some a ∧ _
      unfold setCellTrue
      rw [dif_pos hy, Option.map_some']
      exact ⟨_, rfl, rfl, rfl⟩
  | true => exact ⟨_, construct_true_eq rs nb w h rand, rfl, rfl⟩

theorem construct_shape (rs : List Nat) (nb : AutomataNeighborhood) (w h : Nat)
    (initRand : Bool) (rand : Nat → Nat → Bool) (a : Automata) (hw : 1 ≤ w)
    (hc : Automata.construct rs nb w h initRand rand = some a) :
    gridHeight a.grid = h ∧ ∀ row ∈ a.grid, row.length = w := by
  cases initRand with
  | false =>
      by_cases hh : 1 ≤ h
      · rw [construct_seed_eq rs nb w h rand hw hh] at hc
        obtain rfl := Option.some.inj hc
        constructor
        · show ((mkGrid w h).set _ _).length = h
          rw [List.length_set, mkGrid_length]
        · intro row hrow
          rw [List.mem_iff_getElem?] at hrow
          obtain ⟨i, hi⟩ := hrow
          rw [List.getElem?_set] at hi
          by_cases hih : h / 2 = i
          · rw [if_pos hih, if_pos (by rw [mkGrid_length]; omega)] at hi
            obtain rfl := Option.some.inj hi
            rw [List.length_set, List.length_replicate]
          · rw [if_neg hih] at hi
            exact mkGrid_rows w h row (List.mem_iff_getElem?.mpr ⟨i, hi⟩)
      · have h0 : h = 0 := by omega
        subst h0
        rw [show Automata.construct rs nb w 0 false rand = none from rfl] at hc
        exact Option.noConfusion hc
  | true =>
      rw [construct_true_eq] at hc
      obtain rfl := Option.some.inj hc
      exact ⟨gridHeight_buildGrid _ _ _, buildGrid_row_length _ _ _⟩

theorem rectangular_of_rows (g : Grid) (w : Nat)
    (hrows : ∀ row ∈ g, row.length = w) : Rectangular g := by
  intro row hrow
  cases g with
  | nil => exact absurd hrow (List.not_mem_nil row)
  | cons r t =>
      rw [hrows row hrow]
      show w = gridWidth (r :: t)
      unfold gridWidth
      rw [List.headD_cons]
      exact (hrows r (List.mem_cons_self r t)).symm

/-! ## Claims C1 and C2 (constructor validation) -/

/-- C1 counterexample: constructing with a ruleset of length 8 or of length
10 succeeds and raises nothing, so construction does not fail with
`InvalidRuleset` when the ruleset length is not 9. -/
theorem claim_C1_cex :
    (Automata.construct [0, 0, 0, 0, 0, 0, 0, 0] .moore 3 3 false
      (fun _ _ => false)).isSome = true ∧
    (Automata.construct [0, 0, 0, 0, 0, 0, 0, 0, 0, 0] .moore 3 3 false
      (fun _ _ => false)).isSome = true := by
  decide

/-- C1 (amended): the constructor performs no ruleset validation at all and
no `InvalidRuleset` error exists: for every ruleset sequence, of any length,
construction raises nothing (succeeding whenever `height ≥ 1`, and always
under random initialization) and stores the ruleset unchanged. -/
theorem claim_C1_no_ruleset_validation (rs : List Nat) (nb : AutomataNeighborhood)
    (w h : Nat) (initRand : Bool) (rand : Nat → Nat → Bool) (hh : 1 ≤ h) :
    ∃ a, Automata.construct rs nb w h initRand rand = some a ∧ a.ruleset = rs := by
  obtain ⟨a, ha, hrs, -⟩ := construct_isSome rs nb w h initRand rand hh
  exact ⟨a, ha, hrs⟩

theorem claim_C1_no_ruleset_validation_witness :
    (1 : Nat) ≤ 3 ∧ ∃ a, Automata.construct [1, 2, 3] .vonNeumann 4 3 false
      (fun _ _ => false) = some a ∧ a.ruleset = [1, 2, 3] :=
  ⟨by decide,
    claim_C1_no_ruleset_validation [1, 2, 3] .vonNeumann 4 3 false
      (fun _ _ => false) (by decide)⟩

/-- C2 counterexample: constructing with width 0 (< 1) and height 1 succeeds
and raises nothing, so construction does not fail with `InvalidDimensions`;
and constructing with height 0 (< 1) crashes with a `TypeError` (modelled
`none`), not with `InvalidDimensions`. -/
theorem claim_C2_cex :
    (Automata.construct [0, 0, 0, 0, 0, 0, 0, 0, 0] .moore 0 1 false
      (fun _ _ => false)).isSome = true ∧
    Automata.construct [0, 0, 0, 0, 0, 0, 0, 0, 0] .moore 3 0 false
      (fun _ _ => false) = none := by
  decide

/-- C2 (amended): the constructor performs no dimension validation and no
`InvalidDimensions` error exists (width < 1 still succeeds; height < 1
crashes with a `TypeError` under single-seed initialization); for
width ≥ 1 and height ≥ 1 construction succeeds and produces a
width × height grid. -/
theorem claim_C2_construct_dimensions (rs : List Nat) (nb : AutomataNeighborhood)
    (w h : Nat) (initRand : Bool) (rand : Nat → Nat → Bool)
    (hw : 1 ≤ w) (hh : 1 ≤ h) :
    ∃ a, Automata.construct rs nb w h initRand rand = some a ∧
      gridHeight a.grid = h ∧ ∀ row ∈ a.grid, row.length = w := by
  obtain ⟨a, ha, -, -⟩ := construct_isSome rs nb w h initRand rand hh
  obtain ⟨h1, h2⟩ := construct_shape rs nb w h initRand rand a hw ha
  exact ⟨a, ha, h1, h2⟩

theorem claim_C2_construct_dimensions_witness :
    (1 : Nat) ≤ 4 ∧ (1 : Nat) ≤ 3 ∧
    ∃ a, Automata.construct [0, 3, 0, 3, 0, 3, 0, 3, 0] .moore 4 3 false
      (fun _ _ => false) = some a ∧
      gridHeight a.grid = 3 ∧ ∀ row ∈ a.grid, row.length = 4 :=
  ⟨by decide, by decide,
    claim_C2_construct_dimensions [0, 3, 0, 3, 0, 3, 0, 3, 0] .moore 4 3 false
      (fun _ _ => false) (by decide) (by decide)⟩

/-! ## Claims C5, C6 and C7 (resize) -/

/-- C5 (code bug): the claim — and the spec it restates — says a real
resize yields a grid of exactly the new dimensions, but the height-growth
loop's bound `height - this.grid.length` is re-evaluated after every push
while each push grows `this.grid.length`, so growing from L to H rows pushes
only `⌈(H-L)/2⌉` rows. Concretely, `resize(3, 5)` on a 3 × 2 grid pushes
⌈3/2⌉ = 2 dead rows and yields a 3 × 4 grid, not the claimed 3 × 5; the
overlapping content is preserved. -/
theorem claim_C5_resize_height_bug :
    (Automata.mk rulesetB3S23 AutomataNeighborhood.moore
        [[true, false, false], [false, true, false]]).resize 3 5 =
      some (Automata.mk rulesetB3S23 AutomataNeighborhood.moore
        [[true, false, false], [false, true, false],
         [false, false, false], [false, false, false]]) ∧
    Option.map (fun b => gridHeight b.grid)
      ((Automata.mk rulesetB3S23 AutomataNeighborhood.moore
        [[true, false, false], [false, true, false]]).resize 3 5) = some 4 := by
  decide

/-- C6: `resize` with width < 1 or height < 1, or with the current
dimensions, raises no error and returns with the automaton — grid included —
byte-for-byte unchanged. -/
theorem claim_C6_resize_noop (a : Automata) (width height : Int)
    (h : width < 1 ∨ height < 1 ∨
      (width = (gridWidth a.grid : Int) ∧ height = (gridHeight a.grid : Int))) :
    a.resize width height = some a := by
  unfold Automata.resize
  by_cases h1 : width < 1 ∨ height < 1
  · rw [if_pos h1]
  · have heq : width = (gridWidth a.grid : Int) ∧
        height = (gridHeight a.grid : Int) := by tauto
    have hne : ¬(a.grid.length = 0) := by
      intro h0
      have hgw : gridWidth a.grid = 0 := by
        rw [List.eq_nil_of_length_eq_zero h0]
        rfl
      rw [hgw] at heq
      omega
    rw [if_neg h1, if_neg hne, if_pos heq]

theorem claim_C6_resize_noop_witness :
    ((0 : Int) < 1 ∨ (9 : Int) < 1 ∨
      ((0 : Int) = (gridWidth exAutomata.grid : Int) ∧
       (9 : Int) = (gridHeight exAutomata.grid : Int))) ∧
    exAutomata.resize 0 9 = some exAutomata :=
  ⟨by decide, claim_C6_resize_noop exAutomata 0 9 (by decide)⟩

/-- C7 (code bug): the round trip the claim describes does not restore the
original dimensions, because the height-growth loop of `resize` is
self-limiting (it pushes only `⌈(H-L)/2⌉` of the `H-L` missing rows).
Concretely, taking the 5 × 4 blinker grid through `resize(7, 2)` and then
`resize(5, 4)` pushes only ⌈2/2⌉ = 1 row back and yields a 5 × 3 grid; the
cells inside the intersection of the two rectangles are restored, but the
grid does not regain its original 5 × 4 dimensions. -/
theorem claim_C7_roundtrip_bug :
    (exAutomata.resize 7 2).bind (fun b => b.resize 5 4) =
      some (Automata.mk rulesetB3S23 AutomataNeighborhood.moore
        [[false, false, false, false, false],
         [false, true, true, true, false],
         [false, false, false, false, false]]) ∧
    Option.map (fun b => gridHeight b.grid)
      ((exAutomata.resize 7 2).bind (fun b => b.resize 5 4)) = some 3 := by
  decide

/-! ## Claim C8 (rectangularity invariant) -/

/-- C8 counterexample: constructing with width 0 and height 2 under
single-seed initialization succeeds and produces the grid `[[], [true]]`,
whose two rows have different lengths — construction alone does not
guarantee rectangularity. -/
theorem claim_C8_rectangular_cex :
    Automata.construct [1] .moore 0 2 false (fun _ _ => false) =
      some (Automata.mk [1] AutomataNeighborhood.moore [[], [true]]) ∧
    ¬ Rectangular [[], [true]] := by
  decide

/-- C8 (amended): rectangularity is an invariant for every construction with
width ≥ 1 (the width-0 single-seed construction violates it), `update` maps
rectangular grids to rectangular grids, and so does every `resize` call that
completes (i.e. returns a grid rather than crashing with a `TypeError` on a
zero-row grid), for any arguments. -/
theorem claim_C8_rectangular_invariant :
    (∀ (rs : List Nat) (nb : AutomataNeighborhood) (w h : Nat) (initRand : Bool)
        (rand : Nat → Nat → Bool) (a : Automata), 1 ≤ w →
        Automata.construct rs nb w h initRand rand = some a →
        Rectangular a.grid) ∧
    (∀ a : Automata, Rectangular a.grid → Rectangular a.update.grid) ∧
    (∀ (a : Automata) (width height : Int) (b : Automata),
        Rectangular a.grid → a.resize width height = some b →
        Rectangular b.grid) := by
  refine ⟨?_, ?_, ?_⟩
  · intro rs nb w h initRand rand a hw hc
    obtain ⟨-, hrows⟩ := construct_shape rs nb w h initRand rand a hw hc
    exact rectangular_of_rows _ w hrows
  · intro a _
    rw [update_grid_eq]
    exact rectangular_buildGrid _ _ _
  · intro a width height b hrect hb
    unfold Automata.resize at hb
    by_cases h1 : width < 1 ∨ height < 1
    · rw [if_pos h1] at hb
      obtain rfl := Option.some.inj hb
      exact hrect
    · rw [if_neg h1] at hb
      by_cases h0 : a.grid.length = 0
      · rw [if_pos h0] at hb
        exact Option.noConfusion hb
      · rw [if_neg h0] at hb
        by_cases h2 : width = (gridWidth a.grid : Int) ∧
            height = (gridHeight a.grid : Int)
        · rw [if_pos h2] at hb
          obtain rfl := Option.some.inj hb
          exact hrect
        · rw [if_neg h2] at hb
          obtain rfl := Option.some.inj hb
          show Rectangular (resizeHeight width height (resizeWidth width a.grid))
          rw [widthFirst_raw a.grid width height hrect (by omega) (by omega)]
          exact rectangular_buildGrid _ _ _

theorem claim_C8_rectangular_invariant_witness :
    ((1 : Nat) ≤ 2 ∧
      Automata.construct [1] .moore 2 2 false (fun _ _ => false) =
        some (Automata.mk [1] AutomataNeighborhood.moore
          [[false, false], [false, true]]) ∧
      Rectangular (Automata.mk [1] AutomataNeighborhood.moore
        [[false, false], [false, true]]).grid) ∧
    (Rectangular exAutomata.grid ∧ Rectangular exAutomata.update.grid) ∧
    (exAutomata.resize 3 5 =
      some (Automata.mk rulesetB3S23 AutomataNeighborhood.moore
        [[false, false, false], [false, true, true], [false, false, false],
         [false, false, false], [false, false, false]]) ∧
     Rectangular (Automata.mk rulesetB3S23 AutomataNeighborhood.moore
        [[false, false, false], [false, true, true], [false, false, false],
         [false, false, false], [false, false, false]]).grid) :=
  ⟨⟨by decide, by decide,
      claim_C8_rectangular_invariant.1 [1] .moore 2 2 false (fun _ _ => false)
        (Automata.mk [1] AutomataNeighborhood.moore
          [[false, false], [false, true]]) (by decide) (by decide)⟩,
   ⟨by decide, claim_C8_rectangular_invariant.2.1 exAutomata (by decide)⟩,
   ⟨by decide,
    claim_C8_rectangular_invariant.2.2 exAutomata 3 5
      (Automata.mk rulesetB3S23 AutomataNeighborhood.moore
        [[false, false, false], [false, true, true], [false, false, false],
         [false, false, false], [false, false, false]])
      (by decide) (by decide)⟩⟩

/-! ## Claim C9 (the blinker oscillator under B3/S23) -/

theorem b3s23_survive (n : Nat) :
    decide ((rulesetB3S23.getD n 0) &&& 1 = 1) = decide (n = 2 ∨ n = 3) := by
  rcases n with - | - | - | - | - | - | - | - | - | n
  · rfl
  · rfl
  · rfl
  · rfl
  · rfl
  · rfl
  · rfl
  · rfl
  · rfl
  · rw [List.getD_eq_default _ _ (by rw [show rulesetB3S23.length = 9 from rfl]; omega)]
    have hq : ¬(n + 9 = 2 ∨ n + 9 = 3) := by omega
    simp [hq]

theorem b3s23_birth (n : Nat) :
    decide ((rulesetB3S23.getD n 0) &&& 2 = 2) = decide (n = 3) := by
  rcases n with - | - | - | - | - | - | - | - | - | n
  · rfl
  · rfl
  · rfl
  · rfl
  · rfl
  · rfl
  · rfl
  · rfl
  · rfl
  · rw [List.getD_eq_default _ _ (by rw [show rulesetB3S23.length = 9 from rfl]; omega)]
    have hq : ¬(n + 9 = 3) := by omega
    simp [hq]

theorem gridWidth_blinkerH (w h cx cy : Nat) (hh : 0 < h) :
    gridWidth (blinkerH w h cx cy) = w :=
  gridWidth_buildGrid _ _ _ hh

theorem gridHeight_blinkerH (w h cx cy : Nat) :
    gridHeight (blinkerH w h cx cy) = h :=
  gridHeight_buildGrid _ _ _

theorem gridWidth_blinkerV (w h cx cy : Nat) (hh : 0 < h) :
    gridWidth (blinkerV w h cx cy) = w :=
  gridWidth_buildGrid _ _ _ hh

theorem gridHeight_blinkerV (w h cx cy : Nat) :
    gridHeight (blinkerV w h cx cy) = h :=
  gridHeight_buildGrid _ _ _

theorem getCell_blinkerH (w h cx cy : Nat) (hcx2 : cx + 3 ≤ w) (hcy2 : cy + 2 ≤ h)
    (x y : Nat) :
    getCell (blinkerH w h cx cy) x y =
      decide (y = cy ∧ (x + 1 = cx ∨ x = cx ∨ x = cx + 1)) := by
  unfold blinkerH
  rw [getCell_buildGrid]
  by_cases hin : x < w ∧ y < h
  · rw [if_pos hin]
  · rw [if_neg hin]
    have hq : ¬(y = cy ∧ (x + 1 = cx ∨ x = cx ∨ x = cx + 1)) := by omega
    simp [hq]

theorem getCell_blinkerV (w h cx cy : Nat) (hcx2 : cx + 3 ≤ w) (hcy2 : cy + 2 ≤ h)
    (x y : Nat) :
    getCell (blinkerV w h cx cy) x y =
      decide (x = cx ∧ (y + 1 = cy ∨ y = cy ∨ y = cy + 1)) := by
  unfold blinkerV
  rw [getCell_buildGrid]
  by_cases hin : x < w ∧ y < h
  · rw [if_pos hin]
  · rw [if_neg hin]
    have hq : ¬(x = cx ∧ (y + 1 = cy ∨ y = cy ∨ y = cy + 1)) := by omega
    simp [hq]

theorem nbr_cond_H (w h cx cy : Nat) (hcx1 : 2 ≤ cx) (hcx2 : cx + 3 ≤ w)
    (hcy1 : 1 ≤ cy) (hcy2 : cy + 2 ≤ h) (nx ny : Int) :
    ((((0 ≤ nx ∧ nx < (w : Int)) ∧ 0 ≤ ny) ∧ ny < (h : Int)) ∧
      (ny.toNat = cy ∧ (nx.toNat + 1 = cx ∨ nx.toNat = cx ∨ nx.toNat = cx + 1))) ↔
    (ny = (cy : Int) ∧
      (nx = (cx : Int) - 1 ∨ nx = (cx : Int) ∨ nx = (cx : Int) + 1)) := by
  omega

theorem nbr_cond_V (w h cx cy : Nat) (hcx1 : 2 ≤ cx) (hcx2 : cx + 3 ≤ w)
    (hcy1 : 1 ≤ cy) (hcy2 : cy + 2 ≤ h) (nx ny : Int) :
    ((((0 ≤ nx ∧ nx < (w : Int)) ∧ 0 ≤ ny) ∧ ny < (h : Int)) ∧
      (nx.toNat = cx ∧ (ny.toNat + 1 = cy ∨ ny.toNat = cy ∨ ny.toNat = cy + 1))) ↔
    (nx = (cx : Int) ∧
      (ny = (cy : Int) - 1 ∨ ny = (cy : Int) ∨ ny = (cy : Int) + 1)) := by
  omega

set_option maxHeartbeats 2000000 in
theorem blinkerH_step (w h cx cy : Nat)
    (hcx1 : 2 ≤ cx) (hcx2 : cx + 3 ≤ w) (hcy1 : 1 ≤ cy) (hcy2 : cy + 2 ≤ h) :
    (Automata.mk rulesetB3S23 AutomataNeighborhood.moore
        (blinkerH w h cx cy)).update.grid = blinkerV w h cx cy := by
  rw [update_grid_eq]
  show buildGrid (gridWidth (blinkerH w h cx cy)) (gridHeight (blinkerH w h cx cy))
      (stepCell (Automata.mk rulesetB3S23 AutomataNeighborhood.moore
        (blinkerH w h cx cy))) = blinkerV w h cx cy
  rw [gridWidth_blinkerH w h cx cy (by omega), gridHeight_blinkerH w h cx cy]
  unfold blinkerV
  refine buildGrid_congr fun x y hx hy => ?_
  simp only [stepCell, Automata.getNeighbors, offsets, List.countP_cons,
    List.countP_nil]
  simp only [gridWidth_blinkerH w h cx cy (show 0 < h by omega),
    gridHeight_blinkerH w h cx cy, getCell_blinkerH w h cx cy hcx2 hcy2,
    b3s23_survive, b3s23_birth, Bool.and_eq_true, decide_eq_true_eq]
  simp only [nbr_cond_H w h cx cy hcx1 hcx2 hcy1 hcy2]
  by_cases hc : y = cy ∧ (x + 1 = cx ∨ x = cx ∨ x = cx + 1)
  · rw [if_pos hc, decide_eq_decide]
    split_ifs <;> omega
  · rw [if_neg hc, decide_eq_decide]
    split_ifs <;> omega

set_option maxHeartbeats 2000000 in
theorem blinkerV_step (w h cx cy : Nat)
    (hcx1 : 2 ≤ cx) (hcx2 : cx + 3 ≤ w) (hcy1 : 1 ≤ cy) (hcy2 : cy + 2 ≤ h) :
    (Automata.mk rulesetB3S23 AutomataNeighborhood.moore
        (blinkerV w h cx cy)).update.grid = blinkerH w h cx cy := by
  rw [update_grid_eq]
  show buildGrid (gridWidth (blinkerV w h cx cy)) (gridHeight (blinkerV w h cx cy))
      (stepCell (Automata.mk rulesetB3S23 AutomataNeighborhood.moore
        (blinkerV w h cx cy))) = blinkerH w h cx cy
  rw [gridWidth_blinkerV w h cx cy (by omega), gridHeight_blinkerV w h cx cy]
  unfold blinkerH
  refine buildGrid_congr fun x y hx hy => ?_
  simp only [stepCell, Automata.getNeighbors, offsets, List.countP_cons,
    List.countP_nil]
  simp only [gridWidth_blinkerV w h cx cy (show 0 < h by omega),
    gridHeight_blinkerV w h cx cy, getCell_blinkerV w h cx cy hcx2 hcy2,
    b3s23_survive, b3s23_birth, Bool.and_eq_true, decide_eq_true_eq]
  simp only [nbr_cond_V w h cx cy hcx1 hcx2 hcy1 hcy2]
  by_cases hc : x = cx ∧ (y + 1 = cy ∨ y = cy ∨ y = cy + 1)
  · rw [if_pos hc, decide_eq_decide]
    split_ifs <;> omega
  · rw [if_neg hc, decide_eq_decide]
    split_ifs <;> omega

/-- C9: under rule B3/S23 with the Moore neighbourhood, a grid containing
exactly a 3-cell horizontal line with at least one cell of dead margin on
every side becomes, after one `update`, exactly the vertical 3-cell line
centred on the same middle cell, and returns to exactly the original
horizontal configuration after two `update`s. -/
theorem claim_C9_blinker (w h cx cy : Nat)
    (hcx1 : 2 ≤ cx) (hcx2 : cx + 3 ≤ w) (hcy1 : 1 ≤ cy) (hcy2 : cy + 2 ≤ h) :
    (Automata.mk rulesetB3S23 AutomataNeighborhood.moore
        (blinkerH w h cx cy)).update.grid = blinkerV w h cx cy ∧
    (Automata.mk rulesetB3S23 AutomataNeighborhood.moore
        (blinkerH w h cx cy)).update.update.grid = blinkerH w h cx cy := by
  have h1 := blinkerH_step w h cx cy hcx1 hcx2 hcy1 hcy2
  refine ⟨h1, ?_⟩
  have hmid : (Automata.mk rulesetB3S23 AutomataNeighborhood.moore
      (blinkerH w h cx cy)).update =
      Automata.mk rulesetB3S23 AutomataNeighborhood.moore (blinkerV w h cx cy) :=
    congrArg (Automata.mk rulesetB3S23 AutomataNeighborhood.moore) h1
  rw [hmid]
  exact blinkerV_step w h cx cy hcx1 hcx2 hcy1 hcy2

theorem claim_C9_blinker_witness :
    ((2 : Nat) ≤ 2 ∧ 2 + 3 ≤ 5 ∧ (1 : Nat) ≤ 1 ∧ 1 + 2 ≤ 4) ∧
    ((Automata.mk rulesetB3S23 AutomataNeighborhood.moore
        (blinkerH 5 4 2 1)).update.grid = blinkerV 5 4 2 1 ∧
     (Automata.mk rulesetB3S23 AutomataNeighborhood.moore
        (blinkerH 5 4 2 1)).update.update.grid = blinkerH 5 4 2 1) :=
  ⟨by decide,
    claim_C9_blinker 5 4 2 1 (by decide) (by decide) (by decide) (by decide)⟩

end Flipboard
